import Mathlib

/-!
Shallow embedding of the gateway / REST core of `stoatbot.js`
(`src/client/baseClient.ts` WebSocketClient, `RestClient`, `ServerMember`),
with theorems settling the frozen specification claims.

Conventions:
* TypeScript `string | null` fields become `Option String`; `boolean` becomes `Bool`.
* Stateful methods become pure functions `State → State × <outcome / effect trace>`.
* Timer and network side effects are recorded in explicit effect lists.
-/

namespace Stoatbot

/-! ## WebSocket client state (`WebSocketClient` fields, baseClient.ts lines 294-324) -/

/-- A browser `WebSocket` readyState. -/
inductive SockRS
  | connecting
  | opened
  | closing
  | closed
deriving DecidableEq

/-- Mutable fields of `WebSocketClient`.  `socket : Option SockRS` models
`socket?: WebSocket | null` by its readyState (`none` = null/undefined);
`heartbeatTimer` models whether `heartbeatInterval` holds an armed interval
handle; `reconnecting` models whether the shared `reconnecting` promise
handle is non-null. -/
structure WSState where
  heartbeatTimer : Bool := false
  lastPingTimestamp : Option Int := none
  lastPongAck : Bool := false
  socket : Option SockRS := none
  connected : Bool := false
  reconnecting : Bool := false
  ready : Bool := false
  retryCount : Nat := 0
deriving DecidableEq

/-- Client-side configuration read by `connect()`: `client.options` presence,
`client.token` (`string | null`), and `options.ws?.instanceURL` as available
after `client.init()` resolves. -/
structure WSCfg where
  hasOptions : Bool := true
  token : Option String := none
  wsInstanceURL : Option String := none
  reconnectEnabled : Bool := true
deriving DecidableEq

/-- Errors produced by the WebSocket client, by the literal source message:
`maxRetryExceeded` = "Max retry attempts reached on WS connection, try again later.",
`missingConfigurationSync` = "MISSING_CONFIGURATION_SYNC",
`invalidToken` = "INVALID_TOKEN" (thrown when `typeof client.token !== "string"`),
`instanceURLNotSet` = "WebSocket instance URL not set.",
`socketNotOpen` = "Socket is not open". -/
inductive WSError
  | maxRetryExceeded
  | missingConfigurationSync
  | invalidToken
  | instanceURLNotSet
  | socketNotOpen
deriving DecidableEq

/-! ## Leaf packet handlers (`onPacket`, baseClient.ts lines 471-479) -/

/-- `case WSEvents.AUTHENTICATED`: sets `connected = true` and `retryCount = 0`. -/
def onAuthenticated (st : WSState) : WSState :=
  { st with connected := true, retryCount := 0 }

/-- `case WSEvents.PONG`: sets `lastPongAck = true`. -/
def onPong (st : WSState) : WSState :=
  { st with lastPongAck := true }

/-! ## `connect()` (baseClient.ts lines 555-591)

The method first increments `retryCount`, rejects past the cap, and otherwise
runs an `async` promise executor: resolve immediately if the socket is open
and `ready`; throw on missing options or non-string token; after awaiting
`client.init()`, return `Promise.reject` if no gateway URL; otherwise keep or
create the socket, attach handlers and resolve on the `open` event. -/

/-- How the control path of one `connect()` call terminates.
`executorThrow`: a `throw` inside the `async` promise executor — the
rejection of the inner async function is discarded (unhandled rejection)
and the outer promise returned by `connect()` never settles.
`innerReject`: `return Promise.reject(...)` inside the executor — the returned
rejected promise is likewise discarded and the outer promise never settles.
`opensConnection`: handlers are attached; the promise resolves later, on the
socket `open` event. -/
inductive ConnectOutcome
  | rejected (e : WSError)
  | resolvedExisting
  | executorThrow (e : WSError)
  | innerReject (e : WSError)
  | opensConnection
deriving DecidableEq

/-- Whether the given control path settles (resolves or rejects) the promise
returned by `connect()` by itself.  Executor-level throws and executor-level
`Promise.reject` leave the outer promise pending forever. -/
def settlesConnectPromise : ConnectOutcome → Bool
  | .rejected _ => true
  | .resolvedExisting => true
  | .executorThrow _ => false
  | .innerReject _ => false
  | .opensConnection => false

/-- `WebSocketClient.connect()`, translated line by line from
baseClient.ts 555-591.  Returns the post-call state and the control path. -/
def connect (cfg : WSCfg) (st : WSState) : WSState × ConnectOutcome :=
  let st1 := { st with retryCount := st.retryCount + 1 }
  if st1.retryCount > 10 then
    (st1, .rejected .maxRetryExceeded)
  else if st1.socket = some .opened ∧ st1.ready = true then
    (st1, .resolvedExisting)
  else if cfg.hasOptions = false then
    (st1, .executorThrow .missingConfigurationSync)
  else if cfg.token = none then
    (st1, .executorThrow .invalidToken)
  else if cfg.wsInstanceURL = none then
    (st1, .innerReject .instanceURLNotSet)
  else
    ({ st1 with socket := some (st1.socket.getD .connecting) }, .opensConnection)

/-! ## `destroy()` (baseClient.ts lines 598-625) -/

/-- A timer side effect: `setTimeout(() => this.connect(), delayMs)`. -/
inductive DEffect
  | scheduleConnect (delayMs : Nat)
deriving DecidableEq

/-- Result of one `destroy(isUserInitiated?)` call: the state after the
synchronous body, the effects performed synchronously, and the effects the
`close`-event listener registered by this call will perform when the `close`
event of the socket fires (the listener also nulls the socket then). -/
structure DestroyResult where
  state : WSState
  immediateEffects : List DEffect
  closeListenerEffects : List DEffect
deriving DecidableEq

/-- `WebSocketClient.destroy(isUserInitiated?)`, baseClient.ts 598-625.
The TS parameter is `boolean | undefined`; `false` models both `undefined`
and `false` since only its truthiness is read. -/
def destroy (st : WSState) (isUserInitiated : Bool) : DestroyResult :=
  let st1 := { st with heartbeatTimer := false, connected := false, ready := false }
  if st1.socket = some SockRS.opened then
    { state := { st1 with socket := some .closing }
      immediateEffects := if isUserInitiated then [] else [.scheduleConnect 1000]
      closeListenerEffects := if isUserInitiated then [] else [.scheduleConnect 1000] }
  else
    { state := { st1 with socket := none }
      immediateEffects := if isUserInitiated then [] else [.scheduleConnect 1000]
      closeListenerEffects := [] }

/-- All `connect()` schedulings one `destroy` call is responsible for: those
performed inline plus those its registered close listener performs once the
socket it closed emits `close`. -/
def destroyScheduled (st : WSState) (isUserInitiated : Bool) : List DEffect :=
  (destroy st isUserInitiated).immediateEffects ++
    (destroy st isUserInitiated).closeListenerEffects

/-! ## `sendHeartbeat()` and `send()` (baseClient.ts lines 343-354, 397-412) -/

/-- An outbound gateway frame. -/
inductive Frame
  | ping (data : Int)
  | authenticate (token : String)
deriving DecidableEq

/-- Observable actions of one `sendHeartbeat()` call, in program order:
`callDestroy` then `callConnect` model
`this.reconnecting = this.destroy().then(() => this.connect())`,
`sendFrame f` models `this.send(f)`. -/
inductive HBEffect
  | callDestroy
  | callConnect
  | sendFrame (f : Frame)
deriving DecidableEq

/-- `WebSocketClient.sendHeartbeat()`, baseClient.ts 397-412, with the
ambient clock value `now = Date.now()` passed explicitly and
`reconnectEnabled = client.options.ws?.reconnect`. -/
def sendHeartbeat (reconnectEnabled : Bool) (now : Int) (st : WSState) :
    WSState × List HBEffect :=
  let doReconnect := !st.lastPongAck && reconnectEnabled
  let st1 := if doReconnect then { st with reconnecting := true } else st
  ({ st1 with lastPongAck := false, lastPingTimestamp := some now },
    (if doReconnect then [HBEffect.callDestroy, HBEffect.callConnect] else []) ++
      [HBEffect.sendFrame (.ping now)])

/-- Steps taken by one `send(data)` call. -/
inductive SendStep
  | awaitReconnect
  | transmitFrame
deriving DecidableEq

/-- `WebSocketClient.send(data)`, baseClient.ts 343-354: await the shared
`reconnecting` handle when it is non-null, then transmit if the readyState
of the socket is OPEN, else throw "Socket is not open".  `st` is the client
state as observed at the readyState check. -/
def wsSend (st : WSState) : Option WSError × List SendStep :=
  let pre := if st.reconnecting then [SendStep.awaitReconnect] else []
  if st.socket = some SockRS.opened then
    (none, pre ++ [SendStep.transmitFrame])
  else
    (some .socketNotOpen, pre)

/-! ## Ready-packet ingestion (`onPacket`, `case WSEvents.READY`, baseClient.ts 483-536)

The Ready case is modelled as the ordered trace of the statements it executes.
Cache contents are abstracted: each entity application is recorded as a step
carrying the identifier of the entity (for `packet.users`, the `ClientUser` branch
and the `users._add` branch are both an application of that user). -/

/-- The payload of a `Ready` packet, entities by identifier. -/
structure ReadyPacket where
  users : List Nat := []
  members : List Nat := []
  emojis : List Nat := []
  channels : List Nat := []
  servers : List Nat := []
  voice_states : List Nat := []
deriving DecidableEq

/-- One step of Ready ingestion.  `issueFetch s` = `promises.push(s.members.fetch())`;
`fetchesComplete` = the resolution of `await Promise.all(promises)`;
`startHeartbeat i` = `setHeartbeatTimer(i)`. -/
inductive RStep
  | setPongAck
  | addUser (u : Nat)
  | addMember (m : Nat)
  | addEmoji (e : Nat)
  | addChannel (c : Nat)
  | addServer (s : Nat)
  | issueFetch (s : Nat)
  | startHeartbeat (intervalMs : Nat)
  | fetchesComplete
  | addVoiceState (v : Nat)
  | setReadyFlag
  | emitReady
deriving DecidableEq

/-- The snapshot-application phase of the Ready case (baseClient.ts 488-517):
users, then members, then emojis, then channels, then servers — pushing a
member-fetch promise per server when `options.fetchMembers` is set. -/
def readyApplyPhase (fetchMembers : Bool) (p : ReadyPacket) : List RStep :=
  p.users.map RStep.addUser ++ p.members.map RStep.addMember ++
    p.emojis.map RStep.addEmoji ++ p.channels.map RStep.addChannel ++
    p.servers.flatMap (fun s =>
      RStep.addServer s :: if fetchMembers then [RStep.issueFetch s] else [])

/-- The full statement trace of `case WSEvents.READY` (baseClient.ts 483-536):
`lastPongAck = true`, the snapshot application, `setHeartbeatTimer(interval)`,
`await Promise.all(promises)`, the voice states, `ready = true`, and the
single `emit(Events.READY, client)`. -/
def processReady (fetchMembers : Bool) (intervalMs : Nat) (p : ReadyPacket) :
    List RStep :=
  RStep.setPongAck :: readyApplyPhase fetchMembers p ++
    [RStep.startHeartbeat intervalMs, RStep.fetchesComplete] ++
    p.voice_states.map RStep.addVoiceState ++
    [RStep.setReadyFlag, RStep.emitReady]

/-- Index of the first step satisfying `q` (list length when absent). -/
def rIdx (q : RStep → Bool) (tr : List RStep) : Nat :=
  tr.findIdx q

def isStartHeartbeat : RStep → Bool
  | .startHeartbeat _ => true
  | _ => false

def isFetchesComplete : RStep → Bool
  | .fetchesComplete => true
  | _ => false

def isEmitReady : RStep → Bool
  | .emitReady => true
  | _ => false

def isSetReadyFlag : RStep → Bool
  | .setReadyFlag => true
  | _ => false

def isAddVoiceState : RStep → Bool
  | .addVoiceState _ => true
  | _ => false

/-- Steps that can occur inside `readyApplyPhase` (snapshot applications and
member-fetch issuances). -/
def isApplyPhaseStep : RStep → Bool
  | .addUser _ => true
  | .addMember _ => true
  | .addEmoji _ => true
  | .addChannel _ => true
  | .addServer _ => true
  | .issueFetch _ => true
  | _ => false

/-- A snapshot-application step (entity cache mutation). -/
def isSnapshotApply : RStep → Bool
  | .addUser _ => true
  | .addMember _ => true
  | .addEmoji _ => true
  | .addChannel _ => true
  | .addServer _ => true
  | _ => false

/-- The ordering the claim asserts of Ready ingestion: every issued member
bulk-fetch completes before the heartbeat timer is started. -/
def fetchesCompleteBeforeHeartbeat (tr : List RStep) : Prop :=
  rIdx isFetchesComplete tr < rIdx isStartHeartbeat tr

instance (tr : List RStep) : Decidable (fetchesCompleteBeforeHeartbeat tr) :=
  inferInstanceAs (Decidable (rIdx isFetchesComplete tr < rIdx isStartHeartbeat tr))

/-! ## Bulk-packet dispatch (`onPacket`, `case WSEvents.BULK`, baseClient.ts 468-470)

`await Promise.all(packet.v.map((p) => this.onPacket(p)))` starts every
sub-packet handler in array order; each handler runs synchronously up to its
first `await`, and — when the awaited promises are already resolved, as for
the sub-packet kinds below — the suspended continuations then resume in the
same FIFO microtask order.  The processing of each sub-packet is therefore its
list of synchronous segments, recorded here as labelled atomic actions. -/

/-- An atomic action of a sub-packet handler.  `readyApply` is the Ready
case up to `await Promise.all(promises)` (snapshot application plus
heartbeat start, with no member fetches issued); `readyFinish` is the rest
(voice states, readiness flag, Ready event). -/
inductive BulkAct
  | authAct
  | pongAct
  | errorAct
  | readyApply
  | readyFinish
  | handlerAct (tag : String)
deriving DecidableEq

/-- Gateway sub-packets appearing inside a `Bulk` frame.  `ready` stands for
a Ready packet whose member-fetch promise list ends up empty, so its one
internal `await` is on an already-resolved promise.  `handler t` is any
packet routed through the handler table of the default case. -/
inductive SubPacket
  | authenticated
  | pong
  | error
  | ready
  | handler (tag : String)
deriving DecidableEq

/-- The synchronous segments of `onPacket` on one sub-packet, in order.
Authenticated, Pong and Error run in a single segment; Ready suspends once,
at `await Promise.all(promises)`. -/
def segsOf : SubPacket → List BulkAct
  | .authenticated => [.authAct]
  | .pong => [.pongAct]
  | .error => [.errorAct]
  | .ready => [.readyApply, .readyFinish]
  | .handler t => [.handlerAct t]

/-- The action trace the Bulk case of the source produces:
`Promise.all` runs the first segment of every sub-packet in array order, then the
suspended continuations resume in the same order. -/
def bulkDispatchCode (ps : List SubPacket) : List BulkAct :=
  ps.flatMap (fun p => (segsOf p).take 1) ++ ps.flatMap (fun p => (segsOf p).drop 1)

/-- The action trace strictly sequential dispatch would produce: each
sub-packet fully processed before the next one begins. -/
def bulkDispatchSeq (ps : List SubPacket) : List BulkAct :=
  ps.flatMap segsOf

/-! ## `RestClient.request` / `RestClient.retryRequest` (src/unnamed/part_001, lines 20-119) -/

/-- Result of one transmission through the rate-limit queue:
a success value, an `AxiosError` with an HTTP status, or a network-level
failure with no status. -/
inductive HttpResult
  | ok (v : Nat)
  | status (code : Nat)
  | network
deriving DecidableEq

/-- Observable REST-path steps: one transport submission, or one
`await new Promise(resolve => setTimeout(resolve, ms))` delay. -/
inductive RestStep
  | transmit
  | wait (ms : Nat)
deriving DecidableEq

/-- Terminal outcome of a `RestClient.request` call, by source site:
`authRequired` = `throw new Error("Token is required")` before any transport
call; `apiStatusError c` = "API call failed with status c: ...";
`transportError` = the generic "API call failed: ..." rethrow;
`maxRetriesExceeded` = `throw new Error("Max retries reached")`. -/
inductive RestOutcome
  | success (v : Nat)
  | authRequired
  | apiStatusError (code : Nat)
  | transportError
  | maxRetriesExceeded
deriving DecidableEq

/-- `429 || >= 500`: the transient classification of part_001 line 52. -/
def isTransientStatus (c : Nat) : Bool :=
  c == 429 || c ≥ 500

/-- The recursion of `retryRequest` (part_001, 95-119) by remaining budget.
One unit of fuel is one permitted retry attempt: each attempt transmits once
(`request(..., retry=true)`); on success it returns, on any failure it waits
`timeoutMs` and recurses; exhausted fuel is `attempt >= retries`, which
throws "Max retries reached". -/
def retryGo (timeoutMs : Nat) (outcomes : Nat → HttpResult) :
    Nat → Nat → RestOutcome × List RestStep
  | 0, _ => (.maxRetriesExceeded, [])
  | fuel + 1, idx =>
    match outcomes idx with
    | .ok v => (.success v, [.transmit])
    | _ =>
      let r := retryGo timeoutMs outcomes fuel (idx + 1)
      (r.1, RestStep.transmit :: RestStep.wait timeoutMs :: r.2)

/-- `RestClient.retryRequest(attempt, ...)` (part_001, 95-119): the guard
`attempt >= (options.rest?.retries ?? 3)` throws MaxRetriesExceeded, so the
remaining budget is `retries - attempt`; `outcomes n` is the result of the
`n`-th transmission of the whole request (the first retry-loop
transmission being index `idx`). -/
def retryRequest (retries timeoutMs : Nat) (outcomes : Nat → HttpResult)
    (idx attempt : Nat) : RestOutcome × List RestStep :=
  retryGo timeoutMs outcomes (retries - attempt) idx

/-- `RestClient.request` with the `retry` flag unset (part_001, 20-72): check
the token, transmit once; on 429/5xx enter `retryRequest(0, ...)`; on any
other status throw the status error; on a status-less failure throw the
generic transport error. -/
def restRequest (tokenPresent : Bool) (retries timeoutMs : Nat)
    (outcomes : Nat → HttpResult) : RestOutcome × List RestStep :=
  if !tokenPresent then (.authRequired, [])
  else
    match outcomes 0 with
    | .ok v => (.success v, [.transmit])
    | .status c =>
      if isTransientStatus c then
        let r := retryRequest retries timeoutMs outcomes 1 0
        (r.1, RestStep.transmit :: r.2)
      else (.apiStatusError c, [.transmit])
    | .network => (.transportError, [.transmit])

/-- The pacing the claim asserts: every retry submission (every `transmit`
other than the initial one) is immediately preceded by a `wait timeoutMs`
step.  Checked over adjacent pairs of the step trace. -/
def eachRetryPrecededByWait (timeoutMs : Nat) (steps : List RestStep) : Bool :=
  (steps.zip steps.tail).all fun pr =>
    !(pr.2 == RestStep.transmit) || (pr.1 == RestStep.wait timeoutMs)

/-- Number of transport submissions in a step trace. -/
def transmitCount (steps : List RestStep) : Nat :=
  steps.countP (fun s => s == RestStep.transmit)

/-! ## `ServerMember.addRole` / `ServerMember.removeRole` (src/unnamed/part_007, 104-135)

The `roles` array of `Role` objects on a member is modelled by the list of the
role ids `this.roles.map((role) => role.id)` reads off it. -/

/-- The API request `server.members.edit(this, { roles })` would issue. -/
inductive RoleEdit
  | editRoles (roles : List String)
deriving DecidableEq

/-- `ServerMember.addRole(roleId)` (part_007, 104-113): returns the edit
request issued (`none` when the role is already present) and the resolved
role-id list when the returned promise resolves with `this` (the method
itself never mutates `this.roles`). -/
def addRole (roles : List String) (roleId : String) :
    Option RoleEdit × List String :=
  let currentRoles := roles
  if roleId ∈ currentRoles then (none, roles)
  else (some (.editRoles (currentRoles ++ [roleId])), roles)

/-- `ServerMember.removeRole(roleId)` (part_007, 126-135): symmetric to
`addRole`, filtering the id out when present. -/
def removeRole (roles : List String) (roleId : String) :
    Option RoleEdit × List String :=
  let currentRoles := roles
  if roleId ∉ currentRoles then (none, roles)
  else (some (.editRoles (currentRoles.filter (fun i => i ≠ roleId))), roles)

/-! ## Shared helper lemmas -/

/-- `findIdx` over an append whose first part contains no hit. -/
theorem findIdx_append_of_none {α : Type} (q : α → Bool) (l1 l2 : List α)
    (h : ∀ a ∈ l1, q a = false) :
    (l1 ++ l2).findIdx q = l1.length + l2.findIdx q := by
  induction l1 with
  | nil => simp
  | cons a t ih =>
    simp only [List.cons_append, List.findIdx_cons, h a (by simp), cond_false,
      ih (fun x hx => h x (by simp [hx])), List.length_cons]
    omega

/-- Concatenating the `f`-parts and then the `g`-parts of a list is a
permutation of concatenating `f a ++ g a` per element. -/
theorem flatMap_append_perm {α β : Type} (f g : α → List β) :
    (l : List α) → ((l.flatMap f ++ l.flatMap g).Perm (l.flatMap fun a => f a ++ g a))
  | [] => by simp
  | a :: t => by
    simp only [List.flatMap_cons]
    have step1 : ((f a ++ t.flatMap f) ++ (g a ++ t.flatMap g)).Perm
        (f a ++ (g a ++ (t.flatMap f ++ t.flatMap g))) := by
      have inner : (t.flatMap f ++ (g a ++ t.flatMap g)).Perm
          (g a ++ (t.flatMap f ++ t.flatMap g)) := by
        have hc : (t.flatMap f ++ g a).Perm (g a ++ t.flatMap f) := List.perm_append_comm
        have := hc.append_right (t.flatMap g)
        simpa [List.append_assoc] using this
      have := inner.append_left (f a)
      simpa [List.append_assoc] using this
    have step2 : (f a ++ (g a ++ (t.flatMap f ++ t.flatMap g))).Perm
        ((f a ++ g a) ++ t.flatMap fun x => f x ++ g x) := by
      have := ((flatMap_append_perm f g t).append_left (g a)).append_left (f a)
      simpa [List.append_assoc] using this
    exact step1.trans step2

/-- When every sub-packet has at most one segment, the deferred-continuation
parts are all empty. -/
theorem flatMap_drop_one_eq_nil {ps : List SubPacket}
    (h : ∀ p ∈ ps, (segsOf p).length ≤ 1) :
    ps.flatMap (fun p => (segsOf p).drop 1) = [] := by
  induction ps with
  | nil => simp
  | cons a t ih =>
    simp only [List.flatMap_cons]
    rw [List.drop_eq_nil_of_le (h a (by simp)), ih (fun x hx => h x (by simp [hx]))]
    simp

/-- When every sub-packet has at most one segment, the first-segment parts
already are the full processing. -/
theorem flatMap_take_one_eq_self {ps : List SubPacket}
    (h : ∀ p ∈ ps, (segsOf p).length ≤ 1) :
    ps.flatMap (fun p => (segsOf p).take 1) = ps.flatMap segsOf := by
  induction ps with
  | nil => simp
  | cons a t ih =>
    simp only [List.flatMap_cons]
    rw [List.take_of_length_le (h a (by simp)), ih (fun x hx => h x (by simp [hx]))]

/-- Every element of the snapshot-application phase is an apply-phase step. -/
theorem mem_readyApplyPhase {f : Bool} {p : ReadyPacket} {a : RStep}
    (h : a ∈ readyApplyPhase f p) : isApplyPhaseStep a = true := by
  simp only [readyApplyPhase, List.mem_append, List.mem_map, List.mem_flatMap] at h
  rcases h with (((⟨u, _, rfl⟩ | ⟨m, _, rfl⟩) | ⟨e, _, rfl⟩) | ⟨c, _, rfl⟩) | ⟨s, _, hs⟩
  · rfl
  · rfl
  · rfl
  · rfl
  · rcases List.mem_cons.mp hs with rfl | hs2
    · rfl
    · split at hs2 <;> simp_all
      rfl

/-- The Ready trace, reassociated around the snapshot-application phase. -/
theorem processReady_shape (f : Bool) (i : Nat) (p : ReadyPacket) :
    processReady f i p = (RStep.setPongAck :: readyApplyPhase f p) ++
      ([RStep.startHeartbeat i, RStep.fetchesComplete] ++
        (p.voice_states.map RStep.addVoiceState ++
          [RStep.setReadyFlag, RStep.emitReady])) := by
  rw [processReady, List.append_assoc, List.append_assoc]

/-- A predicate failing on all apply-phase steps fails on the whole prefix of
the Ready trace up to the heartbeat start. -/
theorem applyPrefix_none {f : Bool} {p : ReadyPacket} {q : RStep → Bool}
    (hq : ∀ a, isApplyPhaseStep a = true → q a = false)
    (hpa : q RStep.setPongAck = false) :
    ∀ a ∈ RStep.setPongAck :: readyApplyPhase f p, q a = false := by
  intro a ha
  rcases List.mem_cons.mp ha with rfl | ha2
  · exact hpa
  · exact hq a (mem_readyApplyPhase ha2)

/-- Position of the heartbeat start in the Ready trace. -/
theorem idx_startHeartbeat (f : Bool) (i : Nat) (p : ReadyPacket) :
    rIdx isStartHeartbeat (processReady f i p) = (readyApplyPhase f p).length + 1 := by
  rw [rIdx, processReady_shape, findIdx_append_of_none _ _ _
    (applyPrefix_none (fun a => by cases a <;> simp [isApplyPhaseStep, isStartHeartbeat]) rfl)]
  simp [List.findIdx_cons, isStartHeartbeat]

/-- Position of the member-fetch join in the Ready trace. -/
theorem idx_fetchesComplete (f : Bool) (i : Nat) (p : ReadyPacket) :
    rIdx isFetchesComplete (processReady f i p) = (readyApplyPhase f p).length + 2 := by
  rw [rIdx, processReady_shape, findIdx_append_of_none _ _ _
    (applyPrefix_none (fun a => by cases a <;> simp [isApplyPhaseStep, isFetchesComplete]) rfl)]
  simp [List.findIdx_cons, isFetchesComplete, isStartHeartbeat]

/-- Every voice-state application sits after the member-fetch join. -/
theorem idx_addVoiceState (f : Bool) (i : Nat) (p : ReadyPacket) :
    (readyApplyPhase f p).length + 3 ≤ rIdx isAddVoiceState (processReady f i p) := by
  rw [rIdx, processReady_shape, findIdx_append_of_none _ _ _
    (applyPrefix_none (fun a => by cases a <;> simp [isApplyPhaseStep, isAddVoiceState]) rfl)]
  simp [List.findIdx_cons, isAddVoiceState]
  omega

/-- Position of the readiness-flag assignment in the Ready trace. -/
theorem idx_setReadyFlag (f : Bool) (i : Nat) (p : ReadyPacket) :
    rIdx isSetReadyFlag (processReady f i p) =
      (readyApplyPhase f p).length + 3 + p.voice_states.length := by
  rw [rIdx, processReady_shape, findIdx_append_of_none _ _ _
    (applyPrefix_none (fun a => by cases a <;> simp [isApplyPhaseStep, isSetReadyFlag]) rfl)]
  have hv : ∀ a ∈ p.voice_states.map RStep.addVoiceState, isSetReadyFlag a = false := by
    intro a ha
    rcases List.mem_map.mp ha with ⟨v, _, rfl⟩
    rfl
  simp only [List.cons_append, List.nil_append, List.findIdx_cons, isSetReadyFlag, cond_false,
    cond_true, findIdx_append_of_none _ _ _ hv, List.length_cons, List.length_map]
  omega

/-- Position of the Ready emission in the Ready trace. -/
theorem idx_emitReady (f : Bool) (i : Nat) (p : ReadyPacket) :
    rIdx isEmitReady (processReady f i p) =
      (readyApplyPhase f p).length + 4 + p.voice_states.length := by
  rw [rIdx, processReady_shape, findIdx_append_of_none _ _ _
    (applyPrefix_none (fun a => by cases a <;> simp [isApplyPhaseStep, isEmitReady]) rfl)]
  have hv : ∀ a ∈ p.voice_states.map RStep.addVoiceState, isEmitReady a = false := by
    intro a ha
    rcases List.mem_map.mp ha with ⟨v, _, rfl⟩
    rfl
  simp only [List.cons_append, List.nil_append, List.findIdx_cons, isEmitReady, cond_false,
    cond_true, findIdx_append_of_none _ _ _ hv, List.length_cons, List.length_map]
  omega

/-- The Ready event is emitted exactly once per Ready packet. -/
theorem count_emitReady (f : Bool) (i : Nat) (p : ReadyPacket) :
    (processReady f i p).count RStep.emitReady = 1 := by
  rw [processReady_shape]
  have hA : (readyApplyPhase f p).count RStep.emitReady = 0 := by
    refine List.count_eq_zero.mpr ?_
    intro h
    have := mem_readyApplyPhase h
    simp [isApplyPhaseStep] at this
  have hV : (p.voice_states.map RStep.addVoiceState).count RStep.emitReady = 0 := by
    refine List.count_eq_zero.mpr ?_
    intro h
    rcases List.mem_map.mp h with ⟨v, _, hv⟩
    exact absurd hv (by simp)
  simp [List.count_append, List.count_cons, hA, hV]

/-- The Ready emission is the final step of the Ready trace. -/
theorem getLast_emitReady (f : Bool) (i : Nat) (p : ReadyPacket) :
    (processReady f i p).getLast? = some RStep.emitReady := by
  have hsh : processReady f i p =
      ((RStep.setPongAck :: readyApplyPhase f p) ++
        ([RStep.startHeartbeat i, RStep.fetchesComplete] ++
          (p.voice_states.map RStep.addVoiceState ++ [RStep.setReadyFlag]))) ++
        [RStep.emitReady] := by
    rw [processReady_shape]
    simp [List.append_assoc]
  rw [hsh, List.getLast?_concat]

/-- The retry-budget guard: `attempt >= retries` throws MaxRetriesExceeded
without transmitting. -/
theorem retryRequest_cap (retries timeoutMs : Nat) (outcomes : Nat → HttpResult)
    (idx attempt : Nat) (h : retries ≤ attempt) :
    retryRequest retries timeoutMs outcomes idx attempt =
      (RestOutcome.maxRetriesExceeded, []) := by
  rw [retryRequest, Nat.sub_eq_zero_of_le h, retryGo]

/-- A retry attempt under the cap that succeeds transmits once and returns. -/
theorem retryRequest_success (retries timeoutMs : Nat) (outcomes : Nat → HttpResult)
    (idx attempt : Nat) (h : attempt < retries) (v : Nat) (hok : outcomes idx = .ok v) :
    retryRequest retries timeoutMs outcomes idx attempt =
      (RestOutcome.success v, [RestStep.transmit]) := by
  have hs : retries - attempt = (retries - (attempt + 1)) + 1 := by omega
  rw [retryRequest, hs, retryGo, hok]

/-- A retry attempt under the cap that fails transmits, waits `timeoutMs`,
and recurses with the attempt counter incremented by one. -/
theorem retryRequest_fail_step (retries timeoutMs : Nat) (outcomes : Nat → HttpResult)
    (idx attempt : Nat) (h : attempt < retries) (hfail : ∀ v, outcomes idx ≠ .ok v) :
    retryRequest retries timeoutMs outcomes idx attempt =
      ((retryRequest retries timeoutMs outcomes (idx + 1) (attempt + 1)).1,
        RestStep.transmit :: RestStep.wait timeoutMs ::
          (retryRequest retries timeoutMs outcomes (idx + 1) (attempt + 1)).2) := by
  have hs : retries - attempt = (retries - (attempt + 1)) + 1 := by omega
  rw [retryRequest, hs, retryGo]
  cases hcase : outcomes idx with
  | ok v => exact absurd hcase (hfail v)
  | status c => rw [retryRequest]
  | network => rw [retryRequest]

/-- A 429/5xx first response routes the request into the retry loop, starting
at attempt 0, after the initial transmission. -/
theorem restRequest_transient (retries timeoutMs : Nat) (outcomes : Nat → HttpResult)
    (c : Nat) (hc : outcomes 0 = .status c) (htr : isTransientStatus c = true) :
    restRequest true retries timeoutMs outcomes =
      ((retryRequest retries timeoutMs outcomes 1 0).1,
        RestStep.transmit :: (retryRequest retries timeoutMs outcomes 1 0).2) := by
  rw [restRequest]
  simp [hc, htr]

/-- Any other status fails immediately with the status error after a single
transmission. -/
theorem restRequest_terminal (retries timeoutMs : Nat) (outcomes : Nat → HttpResult)
    (c : Nat) (hc : outcomes 0 = .status c) (htr : isTransientStatus c = false) :
    restRequest true retries timeoutMs outcomes =
      (RestOutcome.apiStatusError c, [RestStep.transmit]) := by
  rw [restRequest]
  simp [hc, htr]

/-! ## Claim theorems -/

/-- Claim C1 (confirmed): every `connect()` call increments `retryCount` by
exactly one before anything else; when the incremented count exceeds 10 the
call rejects with MaxRetryExceeded and no socket is opened (the socket field
is untouched); and processing an Authenticated packet resets `retryCount`
to 0 (and marks the client connected). -/
theorem C1_connect_retry_increment_cap_and_reset (cfg : WSCfg) (st : WSState) :
    ((connect cfg st).1.retryCount = st.retryCount + 1) ∧
    (st.retryCount + 1 > 10 →
      (connect cfg st).2 = ConnectOutcome.rejected WSError.maxRetryExceeded ∧
        (connect cfg st).1.socket = st.socket) ∧
    ((onAuthenticated st).retryCount = 0 ∧ (onAuthenticated st).connected = true) := by
  refine ⟨?_, ?_, by simp [onAuthenticated], by simp [onAuthenticated]⟩
  · simp only [connect]
    split_ifs <;> rfl
  · intro h
    simp only [connect]
    rw [if_pos]
    · exact ⟨rfl, rfl⟩
    · simpa using h

/-- Witness for C1 at a concrete state with ten prior attempts. -/
theorem C1_connect_retry_increment_cap_and_reset_witness :
    (connect { token := some "token", wsInstanceURL := some "wss://gw" }
      { retryCount := 10 }).2 = ConnectOutcome.rejected WSError.maxRetryExceeded :=
  ((C1_connect_retry_increment_cap_and_reset
    { token := some "token", wsInstanceURL := some "wss://gw" }
    { retryCount := 10 }).2.1 (by decide)).1

/-- Claim C2 counterexample: a request that fails with 503 twice and succeeds
on the third transmission does return the success value after exactly 2
retries, but the step trace is transmit, transmit, wait, transmit — the
first retry is NOT preceded by the configured timeout wait, refuting the
claim that each retry attempt is preceded by such a wait. -/
theorem C2_counterexample :
    (restRequest true 3 15000
        (fun n => [HttpResult.status 503, .status 503, .ok 42].getD n (.ok 0))).1 =
      RestOutcome.success 42 ∧
    (restRequest true 3 15000
        (fun n => [HttpResult.status 503, .status 503, .ok 42].getD n (.ok 0))).2 =
      [RestStep.transmit, RestStep.transmit, RestStep.wait 15000, RestStep.transmit] ∧
    eachRetryPrecededByWait 15000
      (restRequest true 3 15000
        (fun n => [HttpResult.status 503, .status 503, .ok 42].getD n (.ok 0))).2 = false := by
  refine ⟨by decide, by decide, by decide⟩

/-- Claim C2 (amended): a 429/5xx response enters a bounded retry loop with
the attempt count starting at 0 and incrementing per failure, capped at the
configured maximum; exceeding the cap surfaces MaxRetriesExceeded; the
configured fixed timeout is waited after each failed retry attempt — so
every retry after the first is preceded by the wait, while the first retry
is resubmitted immediately; a 503-503-success scenario returns the success
value after exactly 2 retries (3 transmissions in total); any other 4xx
fails immediately with an ApiStatusError carrying that status and performs
zero retries (a single transmission). -/
theorem C2_rest_retry_amended (retries timeoutMs : Nat) (outcomes : Nat → HttpResult)
    (c : Nat) :
    (∀ idx attempt, retries ≤ attempt →
      retryRequest retries timeoutMs outcomes idx attempt =
        (RestOutcome.maxRetriesExceeded, [])) ∧
    (∀ idx attempt v, attempt < retries → outcomes idx = .ok v →
      retryRequest retries timeoutMs outcomes idx attempt =
        (RestOutcome.success v, [RestStep.transmit])) ∧
    (∀ idx attempt, attempt < retries → (∀ v, outcomes idx ≠ .ok v) →
      retryRequest retries timeoutMs outcomes idx attempt =
        ((retryRequest retries timeoutMs outcomes (idx + 1) (attempt + 1)).1,
          RestStep.transmit :: RestStep.wait timeoutMs ::
            (retryRequest retries timeoutMs outcomes (idx + 1) (attempt + 1)).2)) ∧
    (outcomes 0 = .status c → isTransientStatus c = true →
      restRequest true retries timeoutMs outcomes =
        ((retryRequest retries timeoutMs outcomes 1 0).1,
          RestStep.transmit :: (retryRequest retries timeoutMs outcomes 1 0).2)) ∧
    (outcomes 0 = .status c → isTransientStatus c = false →
      restRequest true retries timeoutMs outcomes =
        (RestOutcome.apiStatusError c, [RestStep.transmit])) ∧
    (transmitCount (restRequest true 3 15000
        (fun n => [HttpResult.status 503, .status 503, .ok 42].getD n (.ok 0))).2 = 3 ∧
      restRequest true 3 15000 (fun _ => HttpResult.status 404) =
        (RestOutcome.apiStatusError 404, [RestStep.transmit])) := by
  refine ⟨?_, ?_, ?_, ?_, ?_, by decide, by decide⟩
  · intro idx attempt h
    exact retryRequest_cap retries timeoutMs outcomes idx attempt h
  · intro idx attempt v h hok
    exact retryRequest_success retries timeoutMs outcomes idx attempt h v hok
  · intro idx attempt h hfail
    exact retryRequest_fail_step retries timeoutMs outcomes idx attempt h hfail
  · intro hc htr
    exact restRequest_transient retries timeoutMs outcomes c hc htr
  · intro hc htr
    exact restRequest_terminal retries timeoutMs outcomes c hc htr

/-- Witness for C2 at concrete inputs: the cap fires at attempt 3 of 3, and
a 404 first response fails immediately with the status error. -/
theorem C2_rest_retry_amended_witness :
    retryRequest 3 15000 (fun _ => HttpResult.status 503) 1 3 =
      (RestOutcome.maxRetriesExceeded, []) ∧
    restRequest true 3 15000 (fun _ => HttpResult.status 404) =
      (RestOutcome.apiStatusError 404, [RestStep.transmit]) :=
  ⟨(C2_rest_retry_amended 3 15000 (fun _ => HttpResult.status 503) 503).1 1 3 (by decide),
    ((C2_rest_retry_amended 3 15000 (fun _ => HttpResult.status 404) 404).2.2.2.2.1
      rfl (by decide))⟩

/-- Claim C3 counterexample: on a Ready packet with one user and one server
under `fetchMembers = true`, the member bulk-fetches do NOT complete before
the heartbeat timer is started — the source calls `setHeartbeatTimer` before
`await Promise.all(promises)`. -/
theorem C3_counterexample :
    ¬ fetchesCompleteBeforeHeartbeat
        (processReady true 30000 { users := [1], servers := [2] }) := by
  decide

/-- Claim C3 (amended): Ready ingestion applies the snapshot (users, members,
emojis, channels, servers — issuing a member bulk-fetch per server when
enabled), then starts the heartbeat timer, then awaits all member fetches,
then applies voice states, then sets the readiness flag, and only then emits
the Ready event exactly once, as the final step; every snapshot entity is
applied strictly before the heartbeat start (hence before the Ready event),
and the fetch join precedes every voice-state application, the readiness
flag, and the emission — but the heartbeat timer start precedes the fetch
join, not the other way round. -/
theorem C3_ready_ingestion_order_amended (f : Bool) (i : Nat) (p : ReadyPacket) :
    rIdx isStartHeartbeat (processReady f i p) <
      rIdx isFetchesComplete (processReady f i p) ∧
    rIdx isFetchesComplete (processReady f i p) <
      rIdx isAddVoiceState (processReady f i p) ∧
    rIdx isFetchesComplete (processReady f i p) <
      rIdx isSetReadyFlag (processReady f i p) ∧
    rIdx isSetReadyFlag (processReady f i p) <
      rIdx isEmitReady (processReady f i p) ∧
    (processReady f i p).count RStep.emitReady = 1 ∧
    (processReady f i p).getLast? = some RStep.emitReady ∧
    (∀ u ∈ p.users, RStep.addUser u ∈
      (processReady f i p).take (rIdx isStartHeartbeat (processReady f i p))) ∧
    (∀ m ∈ p.members, RStep.addMember m ∈
      (processReady f i p).take (rIdx isStartHeartbeat (processReady f i p))) ∧
    (∀ e ∈ p.emojis, RStep.addEmoji e ∈
      (processReady f i p).take (rIdx isStartHeartbeat (processReady f i p))) ∧
    (∀ c ∈ p.channels, RStep.addChannel c ∈
      (processReady f i p).take (rIdx isStartHeartbeat (processReady f i p))) ∧
    (∀ s ∈ p.servers, RStep.addServer s ∈
      (processReady f i p).take (rIdx isStartHeartbeat (processReady f i p))) ∧
    (f = true → ∀ s ∈ p.servers, RStep.issueFetch s ∈
      (processReady f i p).take (rIdx isStartHeartbeat (processReady f i p))) := by
  have htake : (processReady f i p).take (rIdx isStartHeartbeat (processReady f i p)) =
      RStep.setPongAck :: readyApplyPhase f p := by
    rw [idx_startHeartbeat, processReady_shape]
    have hlen : (readyApplyPhase f p).length + 1 =
        (RStep.setPongAck :: readyApplyPhase f p).length := by simp
    rw [hlen, List.take_left]
  refine ⟨?_, ?_, ?_, ?_, count_emitReady f i p, getLast_emitReady f i p,
    ?_, ?_, ?_, ?_, ?_, ?_⟩
  · rw [idx_startHeartbeat, idx_fetchesComplete]; omega
  · have := idx_addVoiceState f i p
    rw [idx_fetchesComplete]; omega
  · rw [idx_fetchesComplete, idx_setReadyFlag]; omega
  · rw [idx_setReadyFlag, idx_emitReady]; omega
  · intro u hu
    rw [htake]
    refine List.mem_cons_of_mem _ ?_
    rw [readyApplyPhase]
    exact List.mem_append_left _ (List.mem_append_left _ (List.mem_append_left _
      (List.mem_append_left _ (List.mem_map_of_mem _ hu))))
  · intro m hm
    rw [htake]
    refine List.mem_cons_of_mem _ ?_
    rw [readyApplyPhase]
    exact List.mem_append_left _ (List.mem_append_left _ (List.mem_append_left _
      (List.mem_append_right _ (List.mem_map_of_mem _ hm))))
  · intro e he
    rw [htake]
    refine List.mem_cons_of_mem _ ?_
    rw [readyApplyPhase]
    exact List.mem_append_left _ (List.mem_append_left _ (List.mem_append_right _
      (List.mem_map_of_mem _ he)))
  · intro c hc
    rw [htake]
    refine List.mem_cons_of_mem _ ?_
    rw [readyApplyPhase]
    exact List.mem_append_left _ (List.mem_append_right _ (List.mem_map_of_mem _ hc))
  · intro s hs
    rw [htake]
    refine List.mem_cons_of_mem _ ?_
    rw [readyApplyPhase]
    refine List.mem_append_right _ (List.mem_flatMap.mpr ⟨s, hs, ?_⟩)
    exact List.mem_cons_self _ _
  · intro hf s hs
    rw [htake]
    refine List.mem_cons_of_mem _ ?_
    rw [readyApplyPhase]
    refine List.mem_append_right _ (List.mem_flatMap.mpr ⟨s, hs, ?_⟩)
    refine List.mem_cons_of_mem _ ?_
    rw [hf]
    simp

/-- Witness for C3 at the concrete one-user one-server packet: the fetch for
server 2 is issued inside the pre-heartbeat prefix of the trace. -/
theorem C3_ready_ingestion_order_amended_witness :
    RStep.issueFetch 2 ∈
      (processReady true 30000 { users := [1], servers := [2] }).take
        (rIdx isStartHeartbeat (processReady true 30000 { users := [1], servers := [2] })) :=
  (C3_ready_ingestion_order_amended true 30000
    { users := [1], servers := [2] }).2.2.2.2.2.2.2.2.2.2.2 rfl 2 (by decide)

/-- Claim C4 (code bug): `destroy(true)` schedules no reconnect, but
`destroy()` / `destroy(false)` with the socket in the OPEN readyState
schedules TWO `connect()` calls at the fixed 1000ms delay — one immediately
after calling `socket.close()` and a second from the close-event listener —
instead of the single reconnect the claim and the specification state.  With
no open socket exactly one reconnect is scheduled.  The evaluation also
shows `destroy` disarming the heartbeat timer in every case. -/
theorem C4_destroy_reconnect_scheduling :
    destroyScheduled { socket := some SockRS.opened } false =
      [DEffect.scheduleConnect 1000, DEffect.scheduleConnect 1000] ∧
    destroyScheduled { socket := some SockRS.opened } true = [] ∧
    destroyScheduled { socket := none } false = [DEffect.scheduleConnect 1000] ∧
    destroyScheduled { socket := none } true = [] ∧
    (destroy { socket := some SockRS.opened, heartbeatTimer := true } true).state.heartbeatTimer
      = false ∧
    (destroy { socket := some SockRS.opened, heartbeatTimer := true } false).state.heartbeatTimer
      = false := by
  decide

/-- Claim C5 (confirmed): `sendHeartbeat()` initiates exactly one reconnect
cycle (a `destroy` call followed by a `connect` call) precisely when the
previous pong was not acknowledged and auto-reconnect is enabled; with
auto-reconnect disabled, or with the pong acknowledged, no reconnect occurs;
in every case the Ping frame carrying `now` is then sent, `lastPongAck` is
reset to false and `lastPingTimestamp` is set to `now`; and a Pong packet
sets `lastPongAck` to true. -/
theorem C5_sendHeartbeat_liveness (en : Bool) (now : Int) (st : WSState) :
    (st.lastPongAck = false → en = true →
      (sendHeartbeat en now st).2 =
        [HBEffect.callDestroy, HBEffect.callConnect, HBEffect.sendFrame (.ping now)]) ∧
    (en = false → (sendHeartbeat en now st).2 = [HBEffect.sendFrame (.ping now)]) ∧
    (st.lastPongAck = true → (sendHeartbeat en now st).2 = [HBEffect.sendFrame (.ping now)]) ∧
    ((sendHeartbeat en now st).1.lastPongAck = false) ∧
    ((sendHeartbeat en now st).1.lastPingTimestamp = some now) ∧
    ((sendHeartbeat en now st).1.reconnecting = (!st.lastPongAck && en || st.reconnecting)) ∧
    ((onPong st).lastPongAck = true) := by
  cases hpa : st.lastPongAck <;> cases en <;> simp [sendHeartbeat, onPong, hpa]

/-- Witness for C5 at a concrete missed-pong state with reconnect enabled. -/
theorem C5_sendHeartbeat_liveness_witness :
    (sendHeartbeat true 7 { lastPongAck := false }).2 =
      [HBEffect.callDestroy, HBEffect.callConnect, HBEffect.sendFrame (.ping 7)] :=
  (C5_sendHeartbeat_liveness true 7 { lastPongAck := false }).1 rfl rfl

/-- Claim C6 counterexample: for the Bulk packet with sub-packets
Ready (with an empty fetch list) and Authenticated, the dispatch the code
performs interleaves them — the Authenticated action runs between the two
Ready segments — so Bulk dispatch is not the strictly sequential dispatch
the claim states. -/
theorem C6_counterexample :
    bulkDispatchCode [SubPacket.ready, SubPacket.authenticated] ≠
      bulkDispatchSeq [SubPacket.ready, SubPacket.authenticated] := by
  decide

/-- Claim C6 (amended): the sub-packets of a Bulk packet are started strictly
in array order and the Bulk packet is considered processed only after every
sub-packet has fully completed — the performed actions are a permutation of
the sequential dispatch — but the sub-packets are processed concurrently
(`Promise.all`), so a later sub-packet can begin before an earlier one with
an internal await has finished; when every sub-packet handler completes in
one synchronous segment, the dispatch coincides with sequential dispatch. -/
theorem C6_bulk_dispatch_amended (ps : List SubPacket) :
    (bulkDispatchCode ps).Perm (bulkDispatchSeq ps) ∧
    ((∀ p ∈ ps, (segsOf p).length ≤ 1) → bulkDispatchCode ps = bulkDispatchSeq ps) := by
  constructor
  · have h := flatMap_append_perm (fun p => (segsOf p).take 1)
      (fun p => (segsOf p).drop 1) ps
    have heq : (ps.flatMap fun a => (segsOf a).take 1 ++ (segsOf a).drop 1) =
        ps.flatMap segsOf := by
      simp only [List.take_append_drop]
    rw [bulkDispatchCode, bulkDispatchSeq, ← heq]
    exact h
  · intro h
    rw [bulkDispatchCode, bulkDispatchSeq, flatMap_drop_one_eq_nil h,
      flatMap_take_one_eq_self h, List.append_nil]

/-- Witness for C6 on single-segment sub-packets: Pong then Authenticated
dispatches exactly sequentially. -/
theorem C6_bulk_dispatch_amended_witness :
    bulkDispatchCode [SubPacket.pong, SubPacket.authenticated] =
      bulkDispatchSeq [SubPacket.pong, SubPacket.authenticated] :=
  (C6_bulk_dispatch_amended [SubPacket.pong, SubPacket.authenticated]).2 (by decide)

/-- Claim C7 (confirmed): `send(data)` with the socket not in the OPEN
readyState fails with SocketNotOpen and performs no transmission; and when
the shared pending-reconnect handle is non-null, the wait on that handle is
the first step, before any transmission attempt. -/
theorem C7_send_guard (st : WSState) :
    (st.socket ≠ some SockRS.opened →
      (wsSend st).1 = some WSError.socketNotOpen ∧
        SendStep.transmitFrame ∉ (wsSend st).2) ∧
    (st.reconnecting = true → (wsSend st).2.head? = some SendStep.awaitReconnect) := by
  constructor
  · intro h
    cases hr : st.reconnecting <;> simp [wsSend, h, hr]
  · intro h
    cases hs : decide (st.socket = some SockRS.opened) <;> simp_all [wsSend]

/-- Witness for C7 at a closed-socket, reconnecting state. -/
theorem C7_send_guard_witness :
    (wsSend { reconnecting := true }).1 = some WSError.socketNotOpen ∧
      SendStep.transmitFrame ∉ (wsSend { reconnecting := true }).2 :=
  (C7_send_guard { reconnecting := true }).1 (by decide)

/-- Claim C8 (code bug): calling `connect()` with no token set throws
INVALID_TOKEN synchronously, before any I/O, and opens no socket — but the
throw happens inside the `async` promise executor, so the promise returned
by `connect()` never settles (the claim states it settles with the
failure); the retry counter has still been incremented. -/
theorem C8_no_token_connect :
    connect { token := none, wsInstanceURL := some "wss://gw" } {} =
      ({ retryCount := 1 }, ConnectOutcome.executorThrow WSError.invalidToken) ∧
    ({ retryCount := 1 } : WSState).socket = none ∧
    settlesConnectPromise
      (connect { token := none, wsInstanceURL := some "wss://gw" } {}).2 = false := by
  decide

/-- Claim C9 counterexample: with the client connected, ready, and the socket
open, a `connect()` call resolves with the existing instance but is NOT a
no-op — the retry counter changes from 0 to 1. -/
theorem C9_counterexample :
    ({ socket := some SockRS.opened, connected := true, ready := true } : WSState).connected
        = true ∧
    ({ socket := some SockRS.opened, connected := true, ready := true } : WSState).retryCount
        = 0 ∧
    (connect { token := some "token", wsInstanceURL := some "wss://gw" }
      { socket := some SockRS.opened, connected := true, ready := true }).2 =
        ConnectOutcome.resolvedExisting ∧
    (connect { token := some "token", wsInstanceURL := some "wss://gw" }
      { socket := some SockRS.opened, connected := true, ready := true }).1.retryCount = 1 := by
  decide

/-- Claim C9 (amended): `connect()` called while the socket is open and the
ready flag is set resolves immediately with the current instance and leaves
every field except `retryCount` unchanged — but it does increment
`retryCount`, and when the incremented count exceeds 10 it instead rejects
with MaxRetryExceeded. -/
theorem C9_connect_noop_amended (cfg : WSCfg) (st : WSState)
    (hop : st.socket = some SockRS.opened) (hrdy : st.ready = true) :
    (st.retryCount + 1 ≤ 10 →
      connect cfg st =
        ({ st with retryCount := st.retryCount + 1 }, ConnectOutcome.resolvedExisting)) ∧
    (st.retryCount + 1 > 10 →
      connect cfg st =
        ({ st with retryCount := st.retryCount + 1 },
          ConnectOutcome.rejected WSError.maxRetryExceeded)) := by
  constructor <;> intro h <;> simp only [connect]
  · rw [if_neg (by simpa using Nat.not_lt.mpr h), if_pos (by exact ⟨hop, hrdy⟩)]
  · rw [if_pos (by simpa using h)]

/-- Witness for C9 at a concrete open-and-ready state. -/
theorem C9_connect_noop_amended_witness :
    connect { token := some "token", wsInstanceURL := some "wss://gw" }
      { socket := some SockRS.opened, connected := true, ready := true } =
      ({ socket := some SockRS.opened, connected := true, ready := true, retryCount := 1 },
        ConnectOutcome.resolvedExisting) :=
  (C9_connect_noop_amended { token := some "token", wsInstanceURL := some "wss://gw" }
    { socket := some SockRS.opened, connected := true, ready := true }
    rfl rfl).1 (by decide)

/-- Claim C10 (confirmed): redundant role edits are no-ops — `addRole` with a
role already present issues no API request and resolves with the role list
unchanged, and `removeRole` with a role not present issues no API request
and resolves with the role list unchanged. -/
theorem C10_redundant_role_edits (roles : List String) (roleId : String) :
    (roleId ∈ roles → addRole roles roleId = (none, roles)) ∧
    (roleId ∉ roles → removeRole roles roleId = (none, roles)) := by
  constructor <;> intro h <;> simp [addRole, removeRole, h]

/-- Witness for C10 on a concrete two-role member. -/
theorem C10_redundant_role_edits_witness :
    addRole ["a", "b"] "a" = (none, ["a", "b"]) ∧
      removeRole ["a", "b"] "c" = (none, ["a", "b"]) :=
  ⟨(C10_redundant_role_edits ["a", "b"] "a").1 (by decide),
    (C10_redundant_role_edits ["a", "b"] "c").2 (by decide)⟩

end Stoatbot
